import Mathlib

/-!
Verification of `scripts/generate-image.py`: a shallow embedding of the
image-generation CLI script and proofs about its behaviour.

The script reads a credential from the environment, issues one HTTP POST to
the Gemini image API, extracts an inline base64 payload from the JSON
response, decodes it with base64 + PIL, and writes the image as a PNG under
`public/images/`.  The embedding models the network, the clock and the
base64/PIL library as explicit parameters, and records the script's side
effects (printing, the HTTP request, directory creation, the file write) as
an explicit effect trace.
-/

set_option maxRecDepth 16384

namespace GenImage

/-- One content part of a response candidate.  `inlineData = some d` models a
part carrying an `inlineData` object whose `data` field is the string `d`;
`none` models a part without an `inlineData` key (e.g. a text part). -/
structure Part where
  inlineData : Option String
deriving DecidableEq

/-- The `content` object of a candidate; a missing `parts` key is modelled by
the empty list (the script reads it with `.get('parts', [])`). -/
structure Content where
  parts : List Part
deriving DecidableEq

/-- One candidate of the response; a missing `content` key is modelled by a
content with no parts (the script reads it with `.get('content', {})`). -/
structure Candidate where
  content : Content
deriving DecidableEq

/-- The parsed JSON response.  `candidates` is the structured candidate list
(missing key modelled by `[]`); `raw` carries the Python `str(result)`
rendering of the whole parsed document, which the script embeds in its
"no image data" error message. -/
structure ApiResponse where
  candidates : List Candidate
  raw : String
deriving DecidableEq

/-- The fixed generation configuration block of the request body
(lines 65-70 of the script). -/
structure GenerationConfig where
  temperature : ℚ
  topP : ℚ
  topK : ℕ
  maxOutputTokens : ℕ
deriving DecidableEq

/-- A text part of the request body. -/
structure TextPart where
  text : String
deriving DecidableEq

/-- A content element of the request body. -/
structure ReqContent where
  parts : List TextPart
deriving DecidableEq

/-- The JSON request body (lines 61-71 of the script). -/
structure RequestPayload where
  contents : List ReqContent
  generationConfig : GenerationConfig
deriving DecidableEq

/-- The HTTP POST request issued by `requests.post` (line 75): URL, headers,
JSON body and timeout in seconds. -/
structure HttpRequest where
  url : String
  headers : List (String × String)
  payload : RequestPayload
  timeoutSec : ℕ
deriving DecidableEq

/-- Outcome of the `requests.post` call, discriminated exactly as the
script's `except` clauses do (lines 74-89): a 2xx response with parsed JSON
body, an error status raised by `raise_for_status` together with the
exception's text, a timeout, or any other `RequestException` with its text. -/
inductive HttpOutcome where
  | success (body : ApiResponse)
  | httpError (status : ℕ) (errText : String)
  | timedOut
  | reqException (errText : String)
deriving DecidableEq

/-- Abstract interface to the base64/PIL library operations the script uses:
`b64decode` models `base64.b64decode` (which can raise, line 113),
`imageOpen` models `Image.open(BytesIO(..))` (which can raise, line 114),
`imageSave` gives the bytes `img.save` writes as a PNG (line 133), and
`width`/`height` the image dimensions (line 137). -/
structure Codec (Img : Type) where
  b64decode : String → Except String (List ℕ)
  imageOpen : List ℕ → Except String Img
  imageSave : Img → List ℕ
  width : Img → ℕ
  height : Img → ℕ

/-- One observable side effect of the script. -/
inductive Effect where
  | printOut (line : String)
  | printErr (line : String)
  | httpPost (req : HttpRequest)
  | makeDirs (path : String)
  | writeFile (path : String) (content : List ℕ)
deriving DecidableEq

/-- The fields of `datetime.now()` at second granularity — exactly what
`strftime("%Y%m%d_%H%M%S")` consumes (line 120). -/
structure PyDateTime where
  year : ℕ
  month : ℕ
  day : ℕ
  hour : ℕ
  minute : ℕ
  second : ℕ
deriving DecidableEq

/-- Invariants Python's `datetime` guarantees for its fields
(`MINYEAR = 1`, `MAXYEAR = 9999`, calendar/clock ranges). -/
def PyDateTime.Valid (t : PyDateTime) : Prop :=
  1 ≤ t.year ∧ t.year ≤ 9999 ∧ 1 ≤ t.month ∧ t.month ≤ 12 ∧
  1 ≤ t.day ∧ t.day ≤ 31 ∧ t.hour ≤ 23 ∧ t.minute ≤ 59 ∧ t.second ≤ 59

instance (t : PyDateTime) : Decidable t.Valid := by
  unfold PyDateTime.Valid
  infer_instance

/-- Decimal digit character. -/
def digChar (n : ℕ) : Char := Char.ofNat (48 + n)

/-- Two-digit zero-padded decimal rendering (strftime `%m`/`%d`/`%H`/`%M`/`%S`
for in-range fields, i.e. `n < 100`). -/
def pad2 (n : ℕ) : List Char := [digChar (n / 10), digChar (n % 10)]

/-- Four-digit zero-padded decimal rendering (strftime `%Y` for valid years,
i.e. `n < 10000`). -/
def pad4 (n : ℕ) : List Char :=
  [digChar (n / 1000), digChar (n / 100 % 10), digChar (n / 10 % 10), digChar (n % 10)]

/-- Models `datetime.now().strftime("%Y%m%d_%H%M%S")` (line 120). -/
def formatTimestamp (t : PyDateTime) : String :=
  String.mk (pad4 t.year ++ pad2 t.month ++ pad2 t.day ++ ('_' ::
    (pad2 t.hour ++ pad2 t.minute ++ pad2 t.second)))

/-- Python `str.strip()`: drop whitespace from both ends (line 125). -/
def pyStrip (s : String) : String :=
  String.mk (((s.data.dropWhile Char.isWhitespace).reverse.dropWhile
    Char.isWhitespace).reverse)

/-- Python `str.replace(' ', '_')` — every occurrence of a single space is
replaced by an underscore (line 125). -/
def pyReplaceSpace (s : String) : String :=
  String.mk (s.data.map (fun c => if c = ' ' then '_' else c))

/-- The character filter of line 123: `c.isalnum() or c in (' ', '-', '_')`
(`isalnum` modelled on the ASCII range, where it agrees with Python). -/
def keepChar (c : Char) : Bool := c.isAlphanum || c == ' ' || c == '-' || c == '_'

/-- Lines 122-125: the `safe_prompt` local —
`"".join(c if c.isalnum() or c in (' ', '-', '_') else '' for c in prompt[:30]).strip().replace(' ', '_')`,
with the generator-join modelled as a fold pushing each kept character. -/
def safe_prompt (prompt : String) : String :=
  pyReplaceSpace (pyStrip
    ((prompt.take 30).data.foldl
      (fun acc c => if keepChar c then acc.push c else acc) ""))

/-- Line 126: the synthesized default filename. -/
def defaultFilename (prompt : String) (now : PyDateTime) : String :=
  "generated_" ++ safe_prompt prompt ++ "_" ++ formatTimestamp now

/-- Line 119: `if not output_filename` — the filename is synthesized when the
argument is `None` or an empty (falsy) string. -/
def chosenFilename (output_filename : Option String) (prompt : String)
    (now : PyDateTime) : String :=
  match output_filename with
  | none => defaultFilename prompt now
  | some s => if s = "" then defaultFilename prompt now else s

/-- Inner loop of lines 96-100 over one candidate's parts: `image_data` is
set to the `data` of the first part carrying an `inlineData` key, and the
inner loop then breaks (later parts of the same candidate are never read). -/
def firstInline : List Part → Option String
  | [] => none
  | p :: rest =>
    match p.inlineData with
    | some d => some d
    | none => firstInline rest

/-- Python truthiness of the `image_data` variable (`None` or a string). -/
def truthy : Option String → Bool
  | none => false
  | some s => !(s == "")

/-- Outer loop of lines 96-102 with the `image_data` accumulator: after each
candidate's inner loop, the outer loop breaks iff `image_data` is truthy. -/
def scanCandidates : List Candidate → Option String → Option String
  | [], acc => acc
  | c :: rest, acc =>
    let upd := match firstInline c.content.parts with
      | some d => some d
      | none => acc
    if truthy upd then upd else scanCandidates rest upd

/-- The message of the line-105 error, embedding the raw response. -/
def noImageDataMsg (r : ApiResponse) : String :=
  "No image data received from API. Response: " ++ r.raw

/-- Lines 95-105: run the two extraction loops, then raise when `image_data`
is falsy (None, or the empty string). -/
def extractImageData (r : ApiResponse) : Except String String :=
  match scanCandidates r.candidates none with
  | some d => if d = "" then Except.error (noImageDataMsg r) else Except.ok d
  | none => Except.error (noImageDataMsg r)

/-- The message of the line-41 missing-credential error. -/
def missingKeyMsg : String :=
  "GOOGLE_API_KEY environment variable not set.\nGet your API key from: https://aistudio.google.com/apikey\nThen set it: export GOOGLE_API_KEY='your-key-here'"

/-- Lines 78-85: translate an HTTP error status into the raised message. -/
def classifyHttpError (status : ℕ) (errText : String) : String :=
  if status = 401 then "Invalid API key. Please check your GOOGLE_API_KEY."
  else if status = 403 then "API key doesn't have required permissions."
  else if status = 429 then "Rate limit exceeded. Please wait and try again."
  else "API request failed: " ++ errText

/-- The fixed endpoint URL (line 52). -/
def apiUrl : String :=
  "https://generativelanguage.googleapis.com/v1beta/models/gemini-2.5-flash-image:generateContent"

/-- Lines 52-71: the HTTP request as issued by line 75 (URL, headers,
JSON body, 60-second timeout). -/
def buildRequest (api_key prompt : String) : HttpRequest where
  url := apiUrl
  headers := [("x-goog-api-key", api_key), ("Content-Type", "application/json")]
  payload :=
    { contents := [{ parts := [{ text := prompt }] }]
      generationConfig :=
        { temperature := 1.0, topP := 0.95, topK := 40, maxOutputTokens := 8192 } }
  timeoutSec := 60

/-- Lines 112-116: base64-decode then parse the image, wrapping any failure
of either step into the decode error message. -/
def decodeImage {Img : Type} (codec : Codec Img) (data : String) :
    Except String Img :=
  match codec.b64decode data with
  | Except.error e => Except.error ("Failed to decode image data: " ++ e)
  | Except.ok bytes =>
    match codec.imageOpen bytes with
    | Except.error e => Except.error ("Failed to decode image data: " ++ e)
    | Except.ok img => Except.ok img

/-- The two progress lines of lines 47-49, printed when verbose. -/
def progressPre (prompt : String) (verbose : Bool) : List Effect :=
  if verbose then
    [Effect.printOut ("📝 Prompt: " ++ prompt),
     Effect.printOut "🎨 Generating image with Nano Banana..."]
  else []

/-- The two progress lines of lines 107-109, printed when verbose. -/
def progressReceived (verbose : Bool) : List Effect :=
  if verbose then
    [Effect.printOut "✅ Image received from API",
     Effect.printOut "💾 Saving image..."]
  else []

/-- The two progress lines of lines 135-137, printed when verbose. -/
def progressSaved {Img : Type} (codec : Codec Img) (img : Img) (path : String)
    (verbose : Bool) : List Effect :=
  if verbose then
    [Effect.printOut ("✨ Image saved to: " ++ path),
     Effect.printOut ("📐 Dimensions: " ++ toString (codec.width img) ++ "x" ++
       toString (codec.height img))]
  else []

/-- The image output directory (lines 129, 132). -/
def imagesDir : String := "public/images"

/-- Line 132: the output path. -/
def outputPath (filename : String) : String :=
  imagesDir ++ "/" ++ filename ++ ".png"

/-- Lines 91-139: everything the handler does after the `requests.post` call
returns — response classification, extraction, decoding, filename synthesis,
directory creation, the file write and the trailing progress lines.  Returns
the effect trace of this phase and the handler's result. -/
def handleNet {Img : Type} (codec : Codec Img) (net : HttpOutcome)
    (now : PyDateTime) (prompt : String) (output_filename : Option String)
    (verbose : Bool) : List Effect × Except String String :=
  match net with
  | HttpOutcome.httpError status errText =>
    ([], Except.error (classifyHttpError status errText))
  | HttpOutcome.timedOut =>
    ([], Except.error "API request timed out. Please try again.")
  | HttpOutcome.reqException e =>
    ([], Except.error ("Network error: " ++ e))
  | HttpOutcome.success result =>
    match extractImageData result with
    | Except.error m => ([], Except.error m)
    | Except.ok image_data =>
      match decodeImage codec image_data with
      | Except.error m => (progressReceived verbose, Except.error m)
      | Except.ok img =>
        let path := outputPath (chosenFilename output_filename prompt now)
        (progressReceived verbose ++
          (Effect.makeDirs imagesDir ::
            Effect.writeFile path (codec.imageSave img) ::
            progressSaved codec img path verbose),
         Except.ok path)

/-- Lines 26-139: the `generate_image` function.  `apiKeyEnv` is
`os.environ.get('GOOGLE_API_KEY')`; `net` the outcome the network would
produce for the request; `now` the clock reading; `codec` the base64/PIL
library.  Returns the ordered effect trace and either the saved path or the
message of the raised `ValueError`. -/
def generate_image {Img : Type} (codec : Codec Img) (apiKeyEnv : Option String)
    (net : HttpOutcome) (now : PyDateTime) (prompt : String)
    (output_filename : Option String) (verbose : Bool) :
    List Effect × Except String String :=
  match apiKeyEnv with
  | none => ([], Except.error missingKeyMsg)
  | some api_key =>
    if api_key = "" then ([], Except.error missingKeyMsg)
    else
      let rest := handleNet codec net now prompt output_filename verbose
      (progressPre prompt verbose ++
        (Effect.httpPost (buildRequest api_key prompt) :: rest.1), rest.2)

/-- The three parsed CLI arguments (lines 146-163). -/
structure Args where
  prompt : String
  output : Option String
  quiet : Bool
deriving DecidableEq

/-- Lines 142-180: the CLI frontend `main`, given already-parsed arguments —
runs the handler with `verbose = not quiet`, prints the output path on stdout
in quiet mode, maps a raised error to a prefixed stderr line and exit code 1;
success falls through to the implicit exit code 0. -/
def main {Img : Type} (codec : Codec Img) (apiKeyEnv : Option String)
    (net : HttpOutcome) (now : PyDateTime) (args : Args) : List Effect × ℕ :=
  let res := generate_image codec apiKeyEnv net now args.prompt args.output (!args.quiet)
  match res.2 with
  | Except.ok path =>
    (res.1 ++ (if args.quiet then [Effect.printOut path] else []), 0)
  | Except.error e =>
    (res.1 ++ [Effect.printErr ("❌ Error: " ++ e)], 1)

/-- Recognizer for HTTP-request effects. -/
def Effect.isPost : Effect → Bool
  | Effect.httpPost _ => true
  | _ => false

/-- Recognizer for file-write effects. -/
def Effect.isWrite : Effect → Bool
  | Effect.writeFile _ _ => true
  | _ => false

/-- The lines a trace prints on standard output, in order. -/
def stdoutLines (effs : List Effect) : List String :=
  effs.filterMap fun e =>
    match e with
    | Effect.printOut l => some l
    | _ => none

/-- The lines a trace prints on standard error, in order. -/
def stderrLines (effs : List Effect) : List String :=
  effs.filterMap fun e =>
    match e with
    | Effect.printErr l => some l
    | _ => none

/-- Extraction as the amended claim words it: within each candidate only the
first part carrying an `inlineData` field is considered, and the payload is
the first considered data string, in candidate order, that is non-empty. -/
def specExtract (cs : List Candidate) : Option String :=
  (cs.filterMap fun c => firstInline c.content.parts).find? fun d => d != ""

/-- The amended extraction contract: the payload when one exists, otherwise
the "no image data" error embedding the raw response. -/
def specExtractExc (r : ApiResponse) : Except String String :=
  match specExtract r.candidates with
  | some d => Except.ok d
  | none => Except.error (noImageDataMsg r)

/-- Extraction as claim C1 literally words it: the first candidate whose
content parts list contains an inline-data field supplies the payload — that
field's base64 string — regardless of whether the string is empty. -/
def claimedExtract (cs : List Candidate) : Option String :=
  (cs.find? fun c => (firstInline c.content.parts).isSome).bind
    fun c => firstInline c.content.parts

/-- Sanitization as the spec words it: keep only alphanumeric characters,
spaces, hyphens and underscores from the first 30 characters, trim
surrounding whitespace, replace internal spaces with underscores. -/
def sanitizeSpec (p : String) : String :=
  String.mk ((((((p.take 30).data.filter keepChar).dropWhile
    Char.isWhitespace).reverse.dropWhile Char.isWhitespace).reverse).map
    fun c => if c = ' ' then '_' else c)

/-- A concrete trivial codec, used to instantiate theorems at witnesses. -/
def unitCodec : Codec Unit where
  b64decode := fun _ => Except.ok [0]
  imageOpen := fun _ => Except.ok ()
  imageSave := fun _ => [137, 80, 78, 71]
  width := fun _ => 1
  height := fun _ => 1

/-- The scan loop, started on a falsy accumulator, selects exactly the first
non-empty considered data string (the invariant behind `specExtract`). -/
theorem scan_spec (cs : List Candidate) (acc : Option String)
    (hacc : truthy acc = false) :
    (match scanCandidates cs acc with
     | some d => if d = "" then none else some d
     | none => none) = specExtract cs := by
  induction cs generalizing acc with
  | nil =>
    match acc with
    | none => simp [scanCandidates, specExtract]
    | some s =>
      simp only [truthy, Bool.not_eq_false', beq_iff_eq] at hacc
      simp [scanCandidates, specExtract, hacc]
  | cons c rest ih =>
    cases hf : firstInline c.content.parts with
    | none =>
      have hstep : scanCandidates (c :: rest) acc = scanCandidates rest acc := by
        simp [scanCandidates, hf, hacc]
      rw [hstep, ih acc hacc]
      simp [specExtract, List.filterMap_cons, hf]
    | some d =>
      by_cases hd : d = ""
      · subst hd
        have hstep : scanCandidates (c :: rest) acc = scanCandidates rest (some "") := by
          simp [scanCandidates, hf, truthy]
        rw [hstep, ih (some "") (by simp [truthy])]
        simp [specExtract, List.filterMap_cons, hf]
      · have hstep : scanCandidates (c :: rest) acc = some d := by
          simp [scanCandidates, hf, truthy, hd]
        rw [hstep]
        simp [specExtract, List.filterMap_cons, hf, hd]

/-- The script's extraction phase equals the amended contract. -/
theorem extract_eq_spec (r : ApiResponse) : extractImageData r = specExtractExc r := by
  have h := scan_spec r.candidates none rfl
  unfold extractImageData specExtractExc
  cases hs : scanCandidates r.candidates none with
  | none =>
    rw [hs] at h
    rw [← h]
  | some d =>
    rw [hs] at h
    dsimp only at h ⊢
    by_cases hd : d = ""
    · rw [if_pos hd] at h ⊢
      rw [← h]
    · rw [if_neg hd] at h ⊢
      rw [← h]

/-- A successful `specExtractExc` is exactly a successful `specExtract`. -/
theorem specExtractExc_ok (r : ApiResponse) (d : String) :
    specExtractExc r = Except.ok d ↔ specExtract r.candidates = some d := by
  unfold specExtractExc
  cases specExtract r.candidates <;> simp

/-- The inner loop's selection is the data of some part of the list. -/
theorem firstInline_mem {ps : List Part} {s : String}
    (h : firstInline ps = some s) : ∃ p ∈ ps, p.inlineData = some s := by
  induction ps with
  | nil => simp [firstInline] at h
  | cons p rest ih =>
    cases hp : p.inlineData with
    | some d =>
      simp only [firstInline, hp] at h
      exact ⟨p, by simp, by rw [hp, h]⟩
    | none =>
      simp only [firstInline, hp] at h
      obtain ⟨q, hq, hq2⟩ := ih h
      exact ⟨q, by simp [hq], hq2⟩

/-- C1 counterexample: in the response whose first candidate carries an
inlineData field with the empty data string and whose second carries `"AA"`,
the claim's extraction rule selects the empty string of the first candidate,
but the handler takes `"AA"`; and in the response whose only candidate
carries an inlineData field with the empty string, the handler raises the
"no image data" error even though an inline-data field is present. -/
theorem C1_counterexample :
    claimedExtract [⟨⟨[⟨some ""⟩]⟩⟩, ⟨⟨[⟨some "AA"⟩]⟩⟩] = some "" ∧
    extractImageData ⟨[⟨⟨[⟨some ""⟩]⟩⟩, ⟨⟨[⟨some "AA"⟩]⟩⟩], "RAW"⟩ = Except.ok "AA" ∧
    (some "" : Option String) ≠ some "AA" ∧
    extractImageData ⟨[⟨⟨[⟨some ""⟩]⟩⟩], "RAW"⟩ =
      Except.error (noImageDataMsg ⟨[⟨⟨[⟨some ""⟩]⟩⟩], "RAW"⟩) := by
  refine ⟨rfl, rfl, by decide, rfl⟩

/-- C1 (amended): the handler scans the candidate list in order, considering
within each candidate only the first part that carries an inline-data field;
it takes as the image payload the first such data string that is non-empty.
If no candidate yields a non-empty inline-data string — including when every
present inline-data field holds the empty string — it fails with the
"no image data" error, whose message contains the raw response. -/
theorem C1_extraction (r : ApiResponse) :
    extractImageData r = specExtractExc r ∧
    noImageDataMsg r = "No image data received from API. Response: " ++ r.raw :=
  ⟨extract_eq_spec r, rfl⟩

/-- C10: an inlineData field whose data value is the empty string is never
accepted as the image payload; extraction continues to later candidates past
a candidate whose considered inline-data string is empty; and if every
inline-data string present in the response is empty the handler raises the
"no image data" error even though inlineData fields were present. -/
theorem C10_empty_inline_data :
    (∀ r d, extractImageData r = Except.ok d → d ≠ "") ∧
    (∀ c cs raw d, firstInline c.content.parts = some "" →
      (extractImageData ⟨c :: cs, raw⟩ = Except.ok d ↔
        extractImageData ⟨cs, raw⟩ = Except.ok d)) ∧
    (∀ r, (∀ c, c ∈ r.candidates → ∀ p, p ∈ c.content.parts → ∀ s,
        p.inlineData = some s → s = "") →
      extractImageData r = Except.error (noImageDataMsg r)) := by
  refine ⟨?_, ?_, ?_⟩
  · intro r d h
    rw [extract_eq_spec] at h
    rw [specExtractExc_ok] at h
    have := List.find?_some h
    simpa using this
  · intro c cs raw d hc
    rw [extract_eq_spec, extract_eq_spec, specExtractExc_ok, specExtractExc_ok]
    show specExtract (c :: cs) = some d ↔ specExtract cs = some d
    unfold specExtract
    simp only [List.filterMap_cons, hc]
    rw [List.find?_cons_of_neg _ (by simp)]
  · intro r hall
    rw [extract_eq_spec]
    unfold specExtractExc
    cases hs : specExtract r.candidates with
    | none => rfl
    | some d =>
      exfalso
      have hpred := List.find?_some hs
      have hmem := List.mem_of_find?_eq_some hs
      rw [List.mem_filterMap] at hmem
      obtain ⟨c, hcmem, hcf⟩ := hmem
      obtain ⟨p, hpmem, hpd⟩ := firstInline_mem hcf
      have : d = "" := hall c hcmem p hpmem d hpd
      simp [this] at hpred

/-- C10 witness: replacing an empty-inline-data first candidate by nothing
leaves the accepted payload unchanged at a concrete response. -/
theorem C10_witness :
    extractImageData ⟨[⟨⟨[⟨some ""⟩]⟩⟩, ⟨⟨[⟨some "BB"⟩]⟩⟩], "R"⟩ = Except.ok "BB" ↔
    extractImageData ⟨[⟨⟨[⟨some "BB"⟩]⟩⟩], "R"⟩ = Except.ok "BB" :=
  C10_empty_inline_data.2.1 ⟨⟨[⟨some ""⟩]⟩⟩ [⟨⟨[⟨some "BB"⟩]⟩⟩] "R" "BB" (by decide)

/-- The generator-join of kept characters accumulates exactly the filtered
characters. -/
theorem foldl_push_data (l : List Char) (acc : String) :
    (l.foldl (fun acc c => if keepChar c then acc.push c else acc) acc).data
      = acc.data ++ l.filter keepChar := by
  induction l generalizing acc with
  | nil => simp
  | cons c rest ih =>
    by_cases h : keepChar c
    · simp [List.foldl_cons, h, ih, String.data_push]
    · simp [List.foldl_cons, h, ih]

/-- Projection of the string constructor. -/
theorem data_mk (l : List Char) : (String.mk l).data = l := rfl

/-- The empty string has no characters. -/
theorem data_empty : ("" : String).data = [] := rfl

/-- The script's sanitization equals the spec-worded one. -/
theorem safe_prompt_eq_spec (p : String) : safe_prompt p = sanitizeSpec p := by
  refine String.ext ?_
  simp only [safe_prompt, sanitizeSpec, pyReplaceSpace, pyStrip, data_mk]
  rw [foldl_push_data, data_empty, List.nil_append]

/-- C3 counterexample: the prompt of the claim's example sanitizes to
`"Hello_World__2024"` (spaces become underscores, and the two consecutive
kept spaces become two underscores), not to the claimed `"Hello World 2024"`. -/
theorem C3_counterexample :
    safe_prompt "Hello, World! @#$ 2024" = "Hello_World__2024" ∧
    safe_prompt "Hello, World! @#$ 2024" ≠ "Hello World 2024" := by
  refine ⟨by decide, by decide⟩

/-- C3 (amended): for every prompt string the sanitized filename fragment is
obtained by keeping only alphanumeric characters, spaces, hyphens and
underscores from the first 30 characters of the prompt, trimming surrounding
whitespace, and replacing internal spaces with underscores; in particular the
prompt "Hello, World! @#$ 2024" yields the fragment "Hello_World__2024". -/
theorem C3_sanitization :
    (∀ p, safe_prompt p = sanitizeSpec p) ∧
    safe_prompt "Hello, World! @#$ 2024" = "Hello_World__2024" :=
  ⟨safe_prompt_eq_spec, by decide⟩

/-- Digit characters are distinct for distinct digits. -/
theorem digChar_inj : ∀ a, a < 10 → ∀ b, b < 10 → digChar a = digChar b → a = b := by
  decide

/-- The two-digit rendering is injective below 100. -/
theorem pad2_inj {m n : ℕ} (hm : m < 100) (hn : n < 100) (h : pad2 m = pad2 n) :
    m = n := by
  simp only [pad2, List.cons.injEq, and_true] at h
  have e1 := digChar_inj _ (by omega) _ (by omega) h.1
  have e2 := digChar_inj _ (by omega) _ (by omega) h.2
  omega

/-- The four-digit rendering is injective below 10000. -/
theorem pad4_inj {m n : ℕ} (hm : m < 10000) (hn : n < 10000) (h : pad4 m = pad4 n) :
    m = n := by
  simp only [pad4, List.cons.injEq, and_true] at h
  obtain ⟨e1, e2, e3, e4⟩ := h
  have f1 := digChar_inj _ (by omega) _ (by omega) e1
  have f2 := digChar_inj _ (by omega) _ (by omega) e2
  have f3 := digChar_inj _ (by omega) _ (by omega) e3
  have f4 := digChar_inj _ (by omega) _ (by omega) e4
  omega

/-- The timestamp string determines every datetime field on valid datetimes. -/
theorem formatTimestamp_inj {t₁ t₂ : PyDateTime} (h₁ : t₁.Valid) (h₂ : t₂.Valid)
    (h : formatTimestamp t₁ = formatTimestamp t₂) : t₁ = t₂ := by
  obtain ⟨y₁, mo₁, d₁, hh₁, mi₁, s₁⟩ := t₁
  obtain ⟨y₂, mo₂, d₂, hh₂, mi₂, s₂⟩ := t₂
  simp only [PyDateTime.Valid] at h₁ h₂
  obtain ⟨hv1, hv2, hv3, hv4, hv5, hv6, hv7, hv8, hv9⟩ := h₁
  obtain ⟨hw1, hw2, hw3, hw4, hw5, hw6, hw7, hw8, hw9⟩ := h₂
  simp only [formatTimestamp, pad4, pad2, List.cons_append, List.nil_append,
    String.ext_iff, data_mk, List.cons.injEq, and_true, true_and] at h
  obtain ⟨e1, e2, e3, e4, e5, e6, e7, e8, e9, e10, e11, e12, e13, e14⟩ := h
  have f1 := digChar_inj _ (by omega) _ (by omega) e1
  have f2 := digChar_inj _ (by omega) _ (by omega) e2
  have f3 := digChar_inj _ (by omega) _ (by omega) e3
  have f4 := digChar_inj _ (by omega) _ (by omega) e4
  have f5 := digChar_inj _ (by omega) _ (by omega) e5
  have f6 := digChar_inj _ (by omega) _ (by omega) e6
  have f7 := digChar_inj _ (by omega) _ (by omega) e7
  have f8 := digChar_inj _ (by omega) _ (by omega) e8
  have f9 := digChar_inj _ (by omega) _ (by omega) e9
  have f10 := digChar_inj _ (by omega) _ (by omega) e10
  have f11 := digChar_inj _ (by omega) _ (by omega) e11
  have f12 := digChar_inj _ (by omega) _ (by omega) e12
  have f13 := digChar_inj _ (by omega) _ (by omega) e13
  have f14 := digChar_inj _ (by omega) _ (by omega) e14
  simp only [PyDateTime.mk.injEq]
  refine ⟨by omega, by omega, by omega, by omega, by omega, by omega⟩

/-- Appending on the left is cancellative for strings. -/
theorem strAppend_left_cancel {a s t : String} (h : a ++ s = a ++ t) : s = t := by
  have hd := congrArg String.data h
  simp only [String.data_append] at hd
  exact String.ext (List.append_cancel_left hd)

/-- The output path convention, spelled out. -/
theorem outputPath_eq (f : String) : outputPath f = "public/images/" ++ f ++ ".png" := by
  unfold outputPath imagesDir
  have h : ("public/images" : String) ++ "/" = "public/images/" := by decide
  rw [h]

/-- With a truthy credential the handler is the request effect followed by the
post-network phase. -/
theorem gen_some {Img : Type} (codec : Codec Img) (k : String) (net : HttpOutcome)
    (now : PyDateTime) (prompt : String) (o : Option String) (v : Bool)
    (hk : k ≠ "") :
    generate_image codec (some k) net now prompt o v =
      (progressPre prompt v ++ (Effect.httpPost (buildRequest k prompt) ::
        (handleNet codec net now prompt o v).1),
       (handleNet codec net now prompt o v).2) := by
  simp [generate_image, hk]

/-- The post-network phase on a successful response whose extraction and
decoding succeed. -/
theorem handleNet_ok {Img : Type} (codec : Codec Img) (r : ApiResponse)
    (now : PyDateTime) (prompt : String) (o : Option String) (v : Bool)
    (d : String) (img : Img)
    (hx : extractImageData r = Except.ok d)
    (hi : decodeImage codec d = Except.ok img) :
    handleNet codec (HttpOutcome.success r) now prompt o v =
      (progressReceived v ++ (Effect.makeDirs imagesDir ::
        Effect.writeFile (outputPath (chosenFilename o prompt now))
          (codec.imageSave img) ::
        progressSaved codec img (outputPath (chosenFilename o prompt now)) v),
       Except.ok (outputPath (chosenFilename o prompt now))) := by
  simp [handleNet, hx, hi]

/-- A successful post-network phase returns the conventional path and has
written the saved image there. -/
theorem handleNet_ok_path {Img : Type} {codec : Codec Img} {net : HttpOutcome}
    {now : PyDateTime} {prompt : String} {o : Option String} {v : Bool}
    {path : String}
    (h : (handleNet codec net now prompt o v).2 = Except.ok path) :
    path = outputPath (chosenFilename o prompt now) ∧
    ∃ img, Effect.writeFile path (codec.imageSave img) ∈
      (handleNet codec net now prompt o v).1 := by
  cases net with
  | httpError st e => simp [handleNet] at h
  | timedOut => simp [handleNet] at h
  | reqException e => simp [handleNet] at h
  | success r =>
    cases hx : extractImageData r with
    | error m => simp [handleNet, hx] at h
    | ok d =>
      cases hi : decodeImage codec d with
      | error m => simp [handleNet, hx, hi] at h
      | ok img =>
        rw [handleNet_ok codec r now prompt o v d img hx hi] at h ⊢
        have h' : Except.ok (outputPath (chosenFilename o prompt now))
            = Except.ok path := h
        injection h' with hh
        subst hh
        exact ⟨rfl, img, by simp⟩

/-- A successful handler run implies a truthy credential, the conventional
returned path, and a write of the saved image at that path. -/
theorem gen_ok {Img : Type} {codec : Codec Img} {key : Option String}
    {net : HttpOutcome} {now : PyDateTime} {prompt : String} {o : Option String}
    {v : Bool} {path : String}
    (h : (generate_image codec key net now prompt o v).2 = Except.ok path) :
    ∃ k, key = some k ∧ k ≠ "" ∧
      path = outputPath (chosenFilename o prompt now) ∧
      ∃ img, Effect.writeFile path (codec.imageSave img) ∈
        (generate_image codec key net now prompt o v).1 := by
  cases key with
  | none => simp [generate_image] at h
  | some k =>
    by_cases hk : k = ""
    · simp [generate_image, hk] at h
    · rw [gen_some codec k net now prompt o v hk] at h ⊢
      obtain ⟨hpath, img, hmem⟩ := handleNet_ok_path h
      exact ⟨k, rfl, hk, hpath, img, by simp [hmem]⟩

/-- C8: when no output filename is supplied, the synthesized filename is the
literal prefix `generated_`, the sanitized prompt fragment and the
`%Y%m%d_%H%M%S` timestamp (e.g. `20240115_143022`); two invocations with the
same prompt at different (valid) times produce different filenames; and two
invocations with the same supplied non-empty output name that succeed both
return the path `public/images/<name>.png` and write the image there, the
write being unconditional. -/
theorem C8_filename_derivation :
    (∀ p t, chosenFilename none p t =
      "generated_" ++ safe_prompt p ++ "_" ++ formatTimestamp t) ∧
    (∀ t, formatTimestamp t = String.mk (pad4 t.year ++ pad2 t.month ++
      pad2 t.day ++ ('_' :: (pad2 t.hour ++ pad2 t.minute ++ pad2 t.second)))) ∧
    formatTimestamp ⟨2024, 1, 15, 14, 30, 22⟩ = "20240115_143022" ∧
    (∀ p t₁ t₂, t₁.Valid → t₂.Valid → t₁ ≠ t₂ →
      chosenFilename none p t₁ ≠ chosenFilename none p t₂) ∧
    (∀ (Img : Type) (codec : Codec Img) key net now prompt v s path, s ≠ "" →
      (generate_image codec key net now prompt (some s) v).2 = Except.ok path →
      path = outputPath s ∧
      ∃ img, Effect.writeFile path (codec.imageSave img) ∈
        (generate_image codec key net now prompt (some s) v).1) ∧
    (∀ f, outputPath f = "public/images/" ++ f ++ ".png") := by
  refine ⟨fun p t => rfl, fun t => rfl, by decide, ?_, ?_, outputPath_eq⟩
  · intro p t₁ t₂ hv1 hv2 hne heq
    exact hne (formatTimestamp_inj hv1 hv2 (strAppend_left_cancel heq))
  · intro Img codec key net now prompt v s path hs hok
    obtain ⟨k, hkey, hk, hpath, img, hmem⟩ := gen_ok hok
    refine ⟨?_, img, hmem⟩
    rw [hpath]
    simp [chosenFilename, hs]

/-- C8 witness: one second apart, the synthesized filenames differ. -/
theorem C8_witness :
    chosenFilename none "p" ⟨2024, 1, 15, 14, 30, 22⟩ ≠
    chosenFilename none "p" ⟨2024, 1, 15, 14, 30, 23⟩ :=
  C8_filename_derivation.2.2.2.1 "p" ⟨2024, 1, 15, 14, 30, 22⟩
    ⟨2024, 1, 15, 14, 30, 23⟩ (by decide) (by decide) (by decide)

/-- Extraction on the canonical single-candidate response with non-empty
inline data succeeds with that data. -/
theorem extract_single (D raw : String) (hD : D ≠ "") :
    extractImageData ⟨[⟨⟨[⟨some D⟩]⟩⟩], raw⟩ = Except.ok D := by
  simp [extractImageData, scanCandidates, firstInline, truthy, hD]

/-- C2: with a truthy credential and a 200 response carrying inline base64
data D, when base64-decoding D and parsing the result as an image succeed,
the handler returns the conventional `public/images/<filename>.png` path for
the derived or supplied filename and writes exactly the bytes of the decoded,
PNG-re-encoded image at that path. -/
theorem C2_success_saves_png {Img : Type} (codec : Codec Img)
    (k D raw prompt : String) (o : Option String) (v : Bool) (now : PyDateTime)
    (bytes : List ℕ) (img : Img)
    (hk : k ≠ "") (hD : D ≠ "")
    (hdec : codec.b64decode D = Except.ok bytes)
    (hopen : codec.imageOpen bytes = Except.ok img) :
    (generate_image codec (some k)
        (HttpOutcome.success ⟨[⟨⟨[⟨some D⟩]⟩⟩], raw⟩) now prompt o v).2 =
      Except.ok (outputPath (chosenFilename o prompt now)) ∧
    Effect.writeFile (outputPath (chosenFilename o prompt now))
        (codec.imageSave img) ∈
      (generate_image codec (some k)
        (HttpOutcome.success ⟨[⟨⟨[⟨some D⟩]⟩⟩], raw⟩) now prompt o v).1 ∧
    (∀ f, outputPath f = "public/images/" ++ f ++ ".png") := by
  have hx := extract_single D raw hD
  have hi : decodeImage codec D = Except.ok img := by simp [decodeImage, hdec, hopen]
  rw [gen_some codec k _ now prompt o v hk,
    handleNet_ok codec _ now prompt o v D img hx hi]
  exact ⟨rfl, by simp, outputPath_eq⟩

/-- C2 witness: a concrete successful invocation returns the conventional
path. -/
theorem C2_witness :
    (generate_image unitCodec (some "key")
        (HttpOutcome.success ⟨[⟨⟨[⟨some "QQ=="⟩]⟩⟩], "RAW"⟩)
        ⟨2024, 1, 15, 14, 30, 22⟩ "p" (some "out") false).2 =
      Except.ok (outputPath (chosenFilename (some "out") "p"
        ⟨2024, 1, 15, 14, 30, 22⟩)) :=
  (C2_success_saves_png unitCodec "key" "QQ==" "RAW" "p" (some "out") false
    ⟨2024, 1, 15, 14, 30, 22⟩ [0] () (by decide) (by decide) rfl rfl).1

/-- C5: a missing credential makes the handler fail immediately — with an
empty effect trace, hence before any network request — and the error message
contains the API-key provisioning page URL. -/
theorem C5_missing_key {Img : Type} (codec : Codec Img) (net : HttpOutcome)
    (now : PyDateTime) (prompt : String) (o : Option String) (v : Bool) :
    generate_image codec none net now prompt o v = ([], Except.error missingKeyMsg) ∧
    missingKeyMsg =
      "GOOGLE_API_KEY environment variable not set.\nGet your API key from: " ++
        "https://aistudio.google.com/apikey" ++
        "\nThen set it: export GOOGLE_API_KEY='your-key-here'" :=
  ⟨rfl, by decide⟩

/-- The pre-request progress lines contain no HTTP request. -/
theorem progressPre_no_post (prompt : String) (v : Bool) :
    (progressPre prompt v).filter Effect.isPost = [] := by
  cases v <;> simp [progressPre, Effect.isPost]

/-- The post-receive progress lines contain no HTTP request. -/
theorem progressReceived_no_post (v : Bool) :
    (progressReceived v).filter Effect.isPost = [] := by
  cases v <;> simp [progressReceived, Effect.isPost]

/-- The post-save progress lines contain no HTTP request. -/
theorem progressSaved_no_post {Img : Type} (codec : Codec Img) (img : Img)
    (path : String) (v : Bool) :
    (progressSaved codec img path v).filter Effect.isPost = [] := by
  cases v <;> simp [progressSaved, Effect.isPost]

/-- The post-network phase issues no HTTP request. -/
theorem handleNet_no_post {Img : Type} (codec : Codec Img) (net : HttpOutcome)
    (now : PyDateTime) (prompt : String) (o : Option String) (v : Bool) :
    (handleNet codec net now prompt o v).1.filter Effect.isPost = [] := by
  cases net with
  | httpError st e => simp [handleNet]
  | timedOut => simp [handleNet]
  | reqException e => simp [handleNet]
  | success r =>
    cases hx : extractImageData r with
    | error m => simp [handleNet, hx]
    | ok d =>
      cases hi : decodeImage codec d with
      | error m => simp [handleNet, hx, hi, progressReceived_no_post]
      | ok img =>
        rw [handleNet_ok codec r now prompt o v d img hx hi]
        simp [List.filter_append, progressReceived_no_post, progressSaved_no_post,
          Effect.isPost]

/-- With a truthy credential, the whole run contains exactly one HTTP
request: the POST built from the credential and the prompt. -/
theorem gen_posts {Img : Type} (codec : Codec Img) (k : String)
    (net : HttpOutcome) (now : PyDateTime) (prompt : String) (o : Option String)
    (v : Bool) (hk : k ≠ "") :
    (generate_image codec (some k) net now prompt o v).1.filter Effect.isPost
      = [Effect.httpPost (buildRequest k prompt)] := by
  rw [gen_some codec k net now prompt o v hk]
  simp [List.filter_append, progressPre_no_post, handleNet_no_post, Effect.isPost]

/-- C7: for every prompt and truthy credential the handler issues exactly one
HTTP POST — to the fixed endpoint URL, with a 60-second timeout, the
credential in the x-goog-api-key header, and a JSON body containing the
prompt as a single text part plus the fixed generation configuration
(temperature 1.0, topP 0.95, topK 40, maxOutputTokens 8192). -/
theorem C7_single_post_request {Img : Type} (codec : Codec Img) (k : String)
    (net : HttpOutcome) (now : PyDateTime) (prompt : String) (o : Option String)
    (v : Bool) (hk : k ≠ "") :
    (generate_image codec (some k) net now prompt o v).1.filter Effect.isPost =
      [Effect.httpPost
        { url := apiUrl
          headers := [("x-goog-api-key", k), ("Content-Type", "application/json")]
          payload :=
            { contents := [{ parts := [{ text := prompt }] }]
              generationConfig :=
                { temperature := 1.0, topP := 0.95, topK := 40,
                  maxOutputTokens := 8192 } }
          timeoutSec := 60 }] ∧
    apiUrl = "https://generativelanguage.googleapis.com/v1beta/models/gemini-2.5-flash-image:generateContent" :=
  ⟨gen_posts codec k net now prompt o v hk, rfl⟩

/-- C7 witness: a concrete run records exactly the one expected POST. -/
theorem C7_witness :
    (generate_image unitCodec (some "key") HttpOutcome.timedOut
        ⟨2024, 1, 15, 14, 30, 22⟩ "p" none true).1.filter Effect.isPost =
      [Effect.httpPost (buildRequest "key" "p")] :=
  (C7_single_post_request unitCodec "key" HttpOutcome.timedOut
    ⟨2024, 1, 15, 14, 30, 22⟩ "p" none true (by decide)).1

/-- C4: with a truthy credential, every HTTP error status is translated into
its distinct terminal error message — 401 invalid credential, 403 missing
permission, 429 rate limit, any other status a generic failure embedding the
underlying error text — a timeout into the timeout message, any other
transport failure into the generic network-error message; and in every case
the run contains exactly one HTTP request, so nothing is retried. -/
theorem C4_http_error_classification {Img : Type} (codec : Codec Img)
    (k : String) (now : PyDateTime) (prompt : String) (o : Option String)
    (v : Bool) (hk : k ≠ "") :
    (∀ e, (generate_image codec (some k) (HttpOutcome.httpError 401 e)
        now prompt o v).2
      = Except.error "Invalid API key. Please check your GOOGLE_API_KEY.") ∧
    (∀ e, (generate_image codec (some k) (HttpOutcome.httpError 403 e)
        now prompt o v).2
      = Except.error "API key doesn't have required permissions.") ∧
    (∀ e, (generate_image codec (some k) (HttpOutcome.httpError 429 e)
        now prompt o v).2
      = Except.error "Rate limit exceeded. Please wait and try again.") ∧
    (∀ st e, st ≠ 401 → st ≠ 403 → st ≠ 429 →
      (generate_image codec (some k) (HttpOutcome.httpError st e)
          now prompt o v).2
        = Except.error ("API request failed: " ++ e)) ∧
    ((generate_image codec (some k) HttpOutcome.timedOut now prompt o v).2
      = Except.error "API request timed out. Please try again.") ∧
    (∀ e, (generate_image codec (some k) (HttpOutcome.reqException e)
        now prompt o v).2
      = Except.error ("Network error: " ++ e)) ∧
    (∀ net, ((generate_image codec (some k) net now prompt o v).1.filter
      Effect.isPost).length = 1) := by
  refine ⟨?_, ?_, ?_, ?_, ?_, ?_, ?_⟩
  · intro e
    rw [gen_some codec k _ now prompt o v hk]
    rfl
  · intro e
    rw [gen_some codec k _ now prompt o v hk]
    rfl
  · intro e
    rw [gen_some codec k _ now prompt o v hk]
    rfl
  · intro st e h1 h2 h3
    rw [gen_some codec k _ now prompt o v hk]
    simp [handleNet, classifyHttpError, h1, h2, h3]
  · rw [gen_some codec k _ now prompt o v hk]
    rfl
  · intro e
    rw [gen_some codec k _ now prompt o v hk]
    rfl
  · intro net
    rw [gen_posts codec k net now prompt o v hk]
    rfl

/-- C4 witness: a concrete non-special status produces the generic failure
message embedding the underlying error text. -/
theorem C4_witness :
    (generate_image unitCodec (some "key")
        (HttpOutcome.httpError 500 "500 Server Error") ⟨2024, 1, 15, 14, 30, 22⟩
        "p" none true).2
      = Except.error ("API request failed: " ++ "500 Server Error") :=
  (C4_http_error_classification unitCodec "key" ⟨2024, 1, 15, 14, 30, 22⟩
    "p" none true (by decide)).2.2.2.1 500 "500 Server Error"
    (by decide) (by decide) (by decide)

/-- The pre-request progress lines write no file. -/
theorem progressPre_no_write (prompt : String) (v : Bool) :
    (progressPre prompt v).filter Effect.isWrite = [] := by
  cases v <;> simp [progressPre, Effect.isWrite]

/-- The post-receive progress lines write no file. -/
theorem progressReceived_no_write (v : Bool) :
    (progressReceived v).filter Effect.isWrite = [] := by
  cases v <;> simp [progressReceived, Effect.isWrite]

/-- A failing post-network phase writes no file. -/
theorem handleNet_error_no_write {Img : Type} {codec : Codec Img}
    {net : HttpOutcome} {now : PyDateTime} {prompt : String} {o : Option String}
    {v : Bool} {e : String}
    (h : (handleNet codec net now prompt o v).2 = Except.error e) :
    (handleNet codec net now prompt o v).1.filter Effect.isWrite = [] := by
  cases net with
  | httpError st er => simp [handleNet]
  | timedOut => simp [handleNet]
  | reqException er => simp [handleNet]
  | success r =>
    cases hx : extractImageData r with
    | error m => simp [handleNet, hx]
    | ok d =>
      cases hi : decodeImage codec d with
      | error m => simp [handleNet, hx, hi, progressReceived_no_write]
      | ok img =>
        rw [handleNet_ok codec r now prompt o v d img hx hi] at h
        simp at h

/-- A failing handler run writes no file. -/
theorem gen_error_no_write {Img : Type} {codec : Codec Img} {key : Option String}
    {net : HttpOutcome} {now : PyDateTime} {prompt : String} {o : Option String}
    {v : Bool} {e : String}
    (h : (generate_image codec key net now prompt o v).2 = Except.error e) :
    (generate_image codec key net now prompt o v).1.filter Effect.isWrite = [] := by
  cases key with
  | none => simp [generate_image]
  | some k =>
    by_cases hk : k = ""
    · simp [generate_image, hk]
    · rw [gen_some codec k net now prompt o v hk] at h ⊢
      simp [List.filter_append, progressPre_no_write, Effect.isWrite,
        handleNet_error_no_write h]

/-- C6: on every failing invocation no output file is written — neither by
the handler nor anywhere in the CLI run — and the process exits with code 1;
the write effect exists only on the success path, after decoding succeeded. -/
theorem C6_no_partial_output {Img : Type} (codec : Codec Img)
    (key : Option String) (net : HttpOutcome) (now : PyDateTime) (args : Args)
    (e : String)
    (h : (generate_image codec key net now args.prompt args.output
      (!args.quiet)).2 = Except.error e) :
    (generate_image codec key net now args.prompt args.output
      (!args.quiet)).1.filter Effect.isWrite = [] ∧
    (main codec key net now args).1.filter Effect.isWrite = [] ∧
    (main codec key net now args).2 = 1 := by
  refine ⟨gen_error_no_write h, ?_, ?_⟩
  · simp [main, h, List.filter_append, gen_error_no_write h, Effect.isWrite]
  · simp [main, h]

/-- C6 witness: the concrete missing-credential failure exits with code 1. -/
theorem C6_witness :
    (main unitCodec none HttpOutcome.timedOut ⟨2024, 1, 15, 14, 30, 22⟩
      ⟨"p", none, false⟩).2 = 1 :=
  (C6_no_partial_output unitCodec none HttpOutcome.timedOut
    ⟨2024, 1, 15, 14, 30, 22⟩ ⟨"p", none, false⟩ missingKeyMsg rfl).2.2

/-- Stdout lines distribute over trace concatenation. -/
theorem stdoutLines_append (a b : List Effect) :
    stdoutLines (a ++ b) = stdoutLines a ++ stdoutLines b := by
  simp [stdoutLines]

/-- Stderr lines distribute over trace concatenation. -/
theorem stderrLines_append (a b : List Effect) :
    stderrLines (a ++ b) = stderrLines a ++ stderrLines b := by
  simp [stderrLines]

/-- The empty trace prints nothing on stdout. -/
theorem stdoutLines_nil : stdoutLines [] = [] := rfl

/-- The empty trace prints nothing on stderr. -/
theorem stderrLines_nil : stderrLines [] = [] := rfl

/-- An HTTP request contributes no stdout line. -/
theorem stdoutLines_post (r : HttpRequest) (l : List Effect) :
    stdoutLines (Effect.httpPost r :: l) = stdoutLines l := rfl

/-- A directory creation contributes no stdout line. -/
theorem stdoutLines_mkdir (p : String) (l : List Effect) :
    stdoutLines (Effect.makeDirs p :: l) = stdoutLines l := rfl

/-- A file write contributes no stdout line. -/
theorem stdoutLines_write (p : String) (b : List ℕ) (l : List Effect) :
    stdoutLines (Effect.writeFile p b :: l) = stdoutLines l := rfl

/-- A stdout print contributes its line. -/
theorem stdoutLines_printOut (s : String) (l : List Effect) :
    stdoutLines (Effect.printOut s :: l) = s :: stdoutLines l := rfl

/-- A stderr print contributes no stdout line. -/
theorem stdoutLines_printErr (s : String) (l : List Effect) :
    stdoutLines (Effect.printErr s :: l) = stdoutLines l := rfl

/-- An HTTP request contributes no stderr line. -/
theorem stderrLines_post (r : HttpRequest) (l : List Effect) :
    stderrLines (Effect.httpPost r :: l) = stderrLines l := rfl

/-- A directory creation contributes no stderr line. -/
theorem stderrLines_mkdir (p : String) (l : List Effect) :
    stderrLines (Effect.makeDirs p :: l) = stderrLines l := rfl

/-- A file write contributes no stderr line. -/
theorem stderrLines_write (p : String) (b : List ℕ) (l : List Effect) :
    stderrLines (Effect.writeFile p b :: l) = stderrLines l := rfl

/-- A stdout print contributes no stderr line. -/
theorem stderrLines_printOut (s : String) (l : List Effect) :
    stderrLines (Effect.printOut s :: l) = stderrLines l := rfl

/-- A stderr print contributes its line. -/
theorem stderrLines_printErr (s : String) (l : List Effect) :
    stderrLines (Effect.printErr s :: l) = s :: stderrLines l := rfl

/-- No progress is printed when verbosity is off. -/
theorem progressPre_false (prompt : String) : progressPre prompt false = [] := rfl

/-- No received-progress is printed when verbosity is off. -/
theorem progressReceived_false : progressReceived false = [] := rfl

/-- No saved-progress is printed when verbosity is off. -/
theorem progressSaved_false {Img : Type} (codec : Codec Img) (img : Img)
    (path : String) : progressSaved codec img path false = [] := rfl

/-- The post-network phase prints nothing in quiet mode. -/
theorem handleNet_stdout_quiet {Img : Type} (codec : Codec Img)
    (net : HttpOutcome) (now : PyDateTime) (prompt : String)
    (o : Option String) :
    stdoutLines (handleNet codec net now prompt o false).1 = [] := by
  cases net with
  | httpError st e => rfl
  | timedOut => rfl
  | reqException e => rfl
  | success r =>
    cases hx : extractImageData r with
    | error m => simp [handleNet, hx, stdoutLines_nil]
    | ok d =>
      cases hi : decodeImage codec d with
      | error m =>
        simp [handleNet, hx, hi, progressReceived_false, stdoutLines_nil]
      | ok img =>
        rw [handleNet_ok codec r now prompt o false d img hx hi]
        simp [progressReceived_false, progressSaved_false, stdoutLines_mkdir,
          stdoutLines_write, stdoutLines_nil]

/-- The handler prints nothing on stdout in quiet mode. -/
theorem gen_stdout_quiet {Img : Type} (codec : Codec Img) (key : Option String)
    (net : HttpOutcome) (now : PyDateTime) (prompt : String)
    (o : Option String) :
    stdoutLines (generate_image codec key net now prompt o false).1 = [] := by
  cases key with
  | none => rfl
  | some k =>
    by_cases hk : k = ""
    · simp [generate_image, hk, stdoutLines_nil]
    · rw [gen_some codec k net now prompt o false hk]
      simp [progressPre_false, stdoutLines_post, handleNet_stdout_quiet]

/-- No progress list prints to stderr. -/
theorem handleNet_no_stderr {Img : Type} (codec : Codec Img)
    (net : HttpOutcome) (now : PyDateTime) (prompt : String)
    (o : Option String) (v : Bool) :
    stderrLines (handleNet codec net now prompt o v).1 = [] := by
  cases net with
  | httpError st e => rfl
  | timedOut => rfl
  | reqException e => rfl
  | success r =>
    cases hx : extractImageData r with
    | error m => simp [handleNet, hx, stderrLines_nil]
    | ok d =>
      cases hi : decodeImage codec d with
      | error m =>
        cases v <;>
          simp [handleNet, hx, hi, progressReceived, stderrLines_nil,
            stderrLines_printOut]
      | ok img =>
        rw [handleNet_ok codec r now prompt o v d img hx hi]
        cases v <;>
          simp [stderrLines_append, progressReceived, progressSaved,
            stderrLines_printOut, stderrLines_mkdir, stderrLines_write,
            stderrLines_nil]

/-- The handler never prints to stderr. -/
theorem gen_no_stderr {Img : Type} (codec : Codec Img) (key : Option String)
    (net : HttpOutcome) (now : PyDateTime) (prompt : String) (o : Option String)
    (v : Bool) :
    stderrLines (generate_image codec key net now prompt o v).1 = [] := by
  cases key with
  | none => rfl
  | some k =>
    by_cases hk : k = ""
    · simp [generate_image, hk, stderrLines_nil]
    · rw [gen_some codec k net now prompt o v hk]
      cases v <;>
        simp [progressPre, stderrLines_printOut, stderrLines_post,
          handleNet_no_stderr]

/-- C9: the CLI exits only with code 0 or 1; on success it exits 0, printing
in quiet mode exactly one stdout line — the output path — and in verbose mode
at least two progress lines; on any handler error it exits 1 and prints
exactly the error-prefixed message on stderr. -/
theorem C9_cli_output_exit {Img : Type} (codec : Codec Img)
    (key : Option String) (net : HttpOutcome) (now : PyDateTime) (args : Args) :
    ((main codec key net now args).2 = 0 ∨ (main codec key net now args).2 = 1) ∧
    (∀ path,
      (generate_image codec key net now args.prompt args.output (!args.quiet)).2
        = Except.ok path →
      (main codec key net now args).2 = 0 ∧
      (args.quiet = true → stdoutLines (main codec key net now args).1 = [path]) ∧
      (args.quiet = false →
        2 ≤ (stdoutLines (main codec key net now args).1).length)) ∧
    (∀ e,
      (generate_image codec key net now args.prompt args.output (!args.quiet)).2
        = Except.error e →
      (main codec key net now args).2 = 1 ∧
      stderrLines (main codec key net now args).1 = ["❌ Error: " ++ e]) := by
  obtain ⟨aprompt, aout, aquiet⟩ := args
  refine ⟨?_, ?_, ?_⟩
  · cases hres : (generate_image codec key net now aprompt aout (!aquiet)).2 with
    | ok path => exact Or.inl (by simp [main, hres])
    | error e => exact Or.inr (by simp [main, hres])
  · intro path hp
    refine ⟨by simp [main, hp], ?_, ?_⟩
    · intro hq
      subst hq
      simp only [Bool.not_true] at hp
      simp [main, hp, Bool.not_true, stdoutLines_append, gen_stdout_quiet,
        stdoutLines_printOut, stdoutLines_nil]
    · intro hq
      subst hq
      simp only [Bool.not_false] at hp
      obtain ⟨k, hkey, hk, -, -⟩ := gen_ok hp
      subst hkey
      simp only [main, Bool.not_false, hp]
      rw [gen_some codec k net now aprompt aout true hk]
      simp [stdoutLines_append, stdoutLines, progressPre]
  · intro e he
    refine ⟨by simp [main, he], ?_⟩
    simp [main, he, stderrLines_append, gen_no_stderr, stderrLines_printErr,
      stderrLines_nil]

/-- C9 witness: a concrete quiet success prints exactly the output path. -/
theorem C9_witness :
    stdoutLines (main unitCodec (some "k")
      (HttpOutcome.success ⟨[⟨⟨[⟨some "QQ"⟩]⟩⟩], "R"⟩) ⟨2024, 1, 15, 14, 30, 22⟩
      ⟨"p", some "out", true⟩).1 = ["public/images/out.png"] :=
  ((C9_cli_output_exit unitCodec (some "k")
    (HttpOutcome.success ⟨[⟨⟨[⟨some "QQ"⟩]⟩⟩], "R"⟩) ⟨2024, 1, 15, 14, 30, 22⟩
    ⟨"p", some "out", true⟩).2.1 "public/images/out.png" rfl).2.1 rfl

end GenImage
